import Mathlib

/-!
Verification development for the protocol-decoding core of glucometerutils.

The definitions below are shallow embeddings of the Python source:

* byte strings are `List Nat` with every element `< 256`;
* machine integers are `Nat`/`Int` with explicit masking (`&&& 0xFFFF`, `% 256`)
  where the Python code masks;
* Python functions that can raise become `Except PyErr _`;
* Python `datetime.datetime` values are modelled by `PyDatetime` (validated
  fields) or, for epoch arithmetic, by their count of seconds since
  1970-01-01 00:00 UTC.

Each embedded definition carries a comment naming the Python function it
translates.
-/

namespace Glucometerutils

/-- Python exceptions observable in the embedded code: the builtin
`IndexError`, `KeyError`, `ValueError`, `TypeError`, `NameError`, the
glucometerutils exceptions `InvalidResponse`, `InvalidChecksum(expected,
calculated)`, the contour `FrameError`, and `struct.error`. -/
inductive PyErr where
  | indexError : PyErr
  | keyError : String → PyErr
  | valueError : PyErr
  | typeError : PyErr
  | nameError : String → PyErr
  | invalidResponse : PyErr
  | invalidChecksum : Nat → Nat → PyErr
  | frameError : PyErr
  | structError : PyErr
  deriving Repr, DecidableEq

/-! ## Checksum library (claims C4, C7)

`xor_checksum` is from `drivers/sdcodefree.py`, `byte_checksum` from
`drivers/td42xx.py`, `crc_ccitt` from `support/lifescan.py`.
-/

/-- Python `functools.reduce(f, xs)` with no initial value: raises
`TypeError` on an empty iterable, otherwise folds `f` from the left starting
at the first element. -/
def pyReduce (f : Nat → Nat → Nat) : List Nat → Except PyErr Nat
  | [] => .error .typeError
  | x :: xs => .ok (xs.foldl f x)

/-- Embeds `sdcodefree.xor_checksum`:
`functools.reduce(operator.xor, msg)`. -/
def xor_checksum (msg : List Nat) : Except PyErr Nat :=
  pyReduce (fun a b => a ^^^ b) msg

/-- Embeds `td42xx.byte_checksum`:
`functools.reduce(operator.add, data) & 0xFF`. -/
def byte_checksum (data : List Nat) : Except PyErr Nat :=
  (pyReduce (fun a b => a + b) data).map (fun s => s &&& 0xFF)

/-- One iteration of the loop body of `lifescan.crc_ccitt`: byte swap,
xor with the data byte, then the 4-bit and 5-bit xor-folding steps, exactly
as the Python source (Python `&` binds tighter than `|`). -/
def crcStep (crc byte : Nat) : Nat :=
  let crc1 := ((crc >>> 8) &&& 0xFFFF) ||| ((crc <<< 8) &&& 0xFFFF)
  let crc2 := crc1 ^^^ byte
  let crc3 := crc2 ^^^ ((crc2 &&& 0xFF) >>> 4)
  let crc4 := crc3 ^^^ ((((crc3 <<< 8) &&& 0xFFFF) <<< 4) &&& 0xFFFF)
  let crc5 := crc4 ^^^ ((crc4 &&& 0xFF) <<< 5)
  crc5

/-- Embeds `lifescan.crc_ccitt`: seed `0xFFFF`, `crcStep` per byte, final
mask `& 0xFFFF`. -/
def crc_ccitt (data : List Nat) : Nat :=
  (data.foldl crcStep 0xFFFF) &&& 0xFFFF

/-- C7: the LifeScan home-grown CRC-16-CCITT variant (seed 0xFFFF,
byte-swap and 4-bit/5-bit xor-folding mixing steps) maps the frame
`02 06 06 03` to `0x41CD` and the frame `02 06 08 03` to `0x62C2`. -/
theorem C7_lifescan_crc_vectors :
    crc_ccitt [0x02, 0x06, 0x06, 0x03] = 0x41CD ∧
    crc_ccitt [0x02, 0x06, 0x08, 0x03] = 0x62C2 := by
  constructor <;> rfl

/-- C4 counterexample: the claim says every checksum function is total with
no error path for every byte sequence including the empty one, but both
`xor_checksum` and `byte_checksum` call `functools.reduce` with no initial
value, which raises `TypeError` on the empty sequence. -/
theorem C4_counterexample :
    xor_checksum [] = .error .typeError ∧
    byte_checksum [] = .error .typeError := by
  constructor <;> rfl

theorem xor_fold_lt (x : Nat) (hx : x < 256) :
    ∀ (l : List Nat), (∀ b ∈ l, b < 256) → l.foldl (fun a b => a ^^^ b) x < 256 := by
  intro l
  induction l generalizing x with
  | nil => intro _; simpa using hx
  | cons y ys ih =>
    intro hmem
    have hy : y < 256 := hmem y (List.mem_cons_self _ _)
    have hxy : x ^^^ y < 256 := Nat.xor_lt_two_pow (n := 8) hx hy
    exact ih (x ^^^ y) hxy (fun b hb => hmem b (List.mem_cons_of_mem _ hb))

/-- C4 (amended): for every non-empty byte sequence, the XOR-fold checksum
returns a value `< 256` (a u8) and the byte-sum-mod-256 checksum returns a
value `< 256`, with no error; totality fails only on the empty sequence. -/
theorem C4_checksums_total_on_nonempty (msg data : List Nat)
    (hmsg : msg ≠ []) (hdata : data ≠ []) (hbytes : ∀ b ∈ msg, b < 256) :
    (∃ v, xor_checksum msg = .ok v ∧ v < 256) ∧
    (∃ w, byte_checksum data = .ok w ∧ w < 256) := by
  constructor
  · match msg, hmsg with
    | x :: xs, _ =>
      refine ⟨xs.foldl (fun a b => a ^^^ b) x, rfl, ?_⟩
      exact xor_fold_lt x (hbytes x (List.mem_cons_self _ _)) xs
        (fun b hb => hbytes b (List.mem_cons_of_mem _ hb))
  · match data, hdata with
    | x :: xs, _ =>
      refine ⟨(xs.foldl (fun a b => a + b) x) &&& 0xFF, rfl, ?_⟩
      have : (xs.foldl (fun a b => a + b) x) &&& 0xFF ≤ 0xFF := Nat.and_le_right
      omega

/-- Witness for C4: the non-emptiness and byte-range hypotheses hold at the
concrete frames `[0x10, 0x30, 0x20]` (an SD CodeFree challenge body) and
`[0x51, 0x22]`, and the conclusion evaluates there. -/
theorem C4_witness :
    ([0x10, 0x30, 0x20] : List Nat) ≠ [] ∧
    (∃ v, xor_checksum [0x10, 0x30, 0x20] = .ok v ∧ v < 256) ∧
    (∃ w, byte_checksum [0x51, 0x22] = .ok w ∧ w < 256) :=
  ⟨by decide,
   (C4_checksums_total_on_nonempty [0x10, 0x30, 0x20] [0x51, 0x22]
      (by decide) (by decide) (by decide)).1,
   (C4_checksums_total_on_nonempty [0x10, 0x30, 0x20] [0x51, 0x22]
      (by decide) (by decide) (by decide)).2⟩

/-! ## Verio timestamp adapter (claim C2)

`construct_extras.Timestamp` decodes a raw integer `r` to
`datetime.datetime.utcfromtimestamp(r + epoch)` and encodes a datetime to
`int((dt - utcfromtimestamp(epoch)).total_seconds())`.
`lifescan_binary_protocol.VERIO_TIMESTAMP` instantiates it with subcon
`construct.Int32ul` and `epoch=946684800`.  Datetimes are modelled by their
seconds since 1970-01-01 00:00 UTC, so `utcfromtimestamp` is the identity
on that representation. -/

/-- Parse of `construct.Int32ul`: a 32-bit little-endian unsigned integer
from four bytes. -/
def int32ul_parse (b : List Nat) : Nat :=
  b.getD 0 0 + 256 * b.getD 1 0 + 65536 * b.getD 2 0 + 16777216 * b.getD 3 0

/-- Leap-year predicate of the proleptic Gregorian calendar (as used by
Python `datetime`). -/
def isLeapYear (y : Nat) : Bool :=
  (y % 4 == 0 && y % 100 != 0) || y % 400 == 0

/-- Cumulative day count at the start of month `m` (1-based) in a
non-leap year. -/
def cumDaysBeforeMonth (m : Nat) : Nat :=
  [0, 0, 31, 59, 90, 120, 151, 181, 212, 243, 273, 304, 334].getD m 0

/-- Day-of-year of the civil date `y-m-d`, 1-based. -/
def dayOfYear (y m d : Nat) : Nat :=
  cumDaysBeforeMonth m + (if isLeapYear y && m > 2 then 1 else 0) + d

/-- Number of days from 0001-01-01 (day 1) to `y-m-d` in the proleptic
Gregorian calendar. -/
def gregorianDayNumber (y m d : Nat) : Nat :=
  365 * (y - 1) + (y - 1) / 4 - (y - 1) / 100 + (y - 1) / 400 + dayOfYear y m d

/-- Seconds since the Unix epoch of the UTC civil instant
`y-m-d h:mi:s` (for dates on or after 1970-01-01). -/
def civilToUnixSeconds (y m d h mi s : Nat) : Nat :=
  (gregorianDayNumber y m d - gregorianDayNumber 1970 1 1) * 86400
    + h * 3600 + mi * 60 + s

/-- Decode direction of `construct_extras.Timestamp._decode` at the
`VERIO_TIMESTAMP` epoch: `utcfromtimestamp(obj + 946684800)`, as seconds
since the Unix epoch. -/
def verio_timestamp_decode (obj : Nat) : Nat :=
  obj + 946684800

/-- Encode direction of `construct_extras.Timestamp._encode` at the
`VERIO_TIMESTAMP` epoch: `int((obj - utcfromtimestamp(946684800)).total_seconds())`
on a datetime given as seconds since the Unix epoch (the difference is a
whole number of seconds, so `int(...)` is exact). -/
def verio_timestamp_encode (dt : Nat) : Int :=
  (dt : Int) - 946684800

/-- C2 counterexample: the claim says raw value 0 decodes to
2010-01-01 00:00, but `946684800` is the Unix timestamp of
2000-01-01 00:00 UTC, so raw 0 decodes to 2000-01-01 00:00 (the source
comment `# 2010-01-01 00:00` contradicts its own constant). -/
theorem C2_counterexample :
    verio_timestamp_decode 0 ≠ civilToUnixSeconds 2010 1 1 0 0 0 ∧
    verio_timestamp_decode 0 = civilToUnixSeconds 2000 1 1 0 0 0 := by
  constructor <;> decide

/-- C2 (amended): the Verio-family timestamp decoder interprets a 32-bit
little-endian integer relative to the epoch 2000-01-01 00:00 (offset
946684800): for every 4-byte little-endian raw value `r`, the decoded
timestamp equals 2000-01-01 00:00 plus `r` seconds (so raw 0 decodes to
2000-01-01 00:00), the raw value fits in 32 bits, and encoding is the
inverse of decoding. -/
theorem C2_verio_timestamp_epoch (b : List Nat)
    (hlen : b.length = 4) (hbytes : ∀ x ∈ b, x < 256) :
    verio_timestamp_decode (int32ul_parse b)
      = civilToUnixSeconds 2000 1 1 0 0 0 + int32ul_parse b ∧
    int32ul_parse b < 2 ^ 32 ∧
    verio_timestamp_encode (verio_timestamp_decode (int32ul_parse b))
      = int32ul_parse b := by
  refine ⟨?_, ?_, ?_⟩
  · have : civilToUnixSeconds 2000 1 1 0 0 0 = 946684800 := by decide
    rw [this]
    simp [verio_timestamp_decode, Nat.add_comm]
  · match b, hlen with
    | [b0, b1, b2, b3], _ =>
      have h0 : b0 < 256 := hbytes b0 (by simp)
      have h1 : b1 < 256 := hbytes b1 (by simp)
      have h2 : b2 < 256 := hbytes b2 (by simp)
      have h3 : b3 < 256 := hbytes b3 (by simp)
      have he : int32ul_parse [b0, b1, b2, b3]
          = b0 + 256 * b1 + 65536 * b2 + 16777216 * b3 := rfl
      rw [he]
      omega
  · simp [verio_timestamp_encode, verio_timestamp_decode]

/-- Witness for C2: the hypotheses hold at the concrete byte string
`[0, 0, 0, 0]`, whose decoded timestamp is the 2000-01-01 00:00 epoch
itself. -/
theorem C2_witness :
    ([0, 0, 0, 0] : List Nat).length = 4 ∧
    verio_timestamp_decode (int32ul_parse [0, 0, 0, 0])
      = civilToUnixSeconds 2000 1 1 0 0 0 + int32ul_parse [0, 0, 0, 0] :=
  ⟨rfl, (C2_verio_timestamp_epoch [0, 0, 0, 0] rfl (by decide)).1⟩

/-! ## LifeScan UltraEasy sliding-window reply check (claim C3)

From `drivers/otultraeasy.py`.  A `_Packet` is its byte array `cmd`; the
link-control byte is `cmd[2]`, with bit masks `_BIT_SENT_COUNTER = 0x01`,
`_BIT_EXPECT_RECEIVE = 0x02`, `_BIT_ACK = 0x04`, `_BIT_DISCONNECT = 0x08`.
`Device._read_response` is modelled from the point where `read_from` has
produced the packet bytes (`read_from` guarantees at least six bytes, which
the theorems carry as a length hypothesis). -/

def BIT_SENT_COUNTER : Nat := 0x01
def BIT_ACK : Nat := 0x04
def BIT_DISCONNECT : Nat := 0x08

/-- Embeds `_Packet.__is_in_control`: `None` for an empty byte array, else
the truth value of `cmd[2] & bitmask` (the callers only use packets with at
least three bytes, so `cmd[2]` is modelled with `getD`). -/
def is_in_control (cmd : List Nat) (bitmask : Nat) : Option Bool :=
  if cmd.isEmpty then none else some (cmd.getD 2 0 &&& bitmask != 0)

/-- Python truthiness of `not x` for `x : Option Bool` (`not None` is
`True`). -/
def pyNot (o : Option Bool) : Bool := o != some true

/-- Python `x != b` for `x : Option Bool` against a `bool` (`None != b` is
`True`). -/
def pyNeBool (o : Option Bool) (b : Bool) : Bool := o != some b

/-- Embeds `_Packet.validate_checksum`: the expected checksum is
`crc_ccitt(cmd[:-2])` and the received one is the 16-bit little-endian
word in `cmd[-2:]` (`struct.unpack` raises `struct.error` unless exactly
two bytes remain). -/
def validate_checksum (cmd : List Nat) : Except PyErr Unit :=
  let expected := crc_ccitt (cmd.take (cmd.length - 2))
  match cmd.drop (cmd.length - 2) with
  | [lo, hi] =>
      if lo + 256 * hi != expected then
        .error (.invalidChecksum expected (lo + 256 * hi))
      else .ok ()
  | _ => .error .structError

/-- Result of a successful `_read_response`: the accepted packet, the
updated `expect_receive_` flag and whether an acknowledgment frame was sent
back. -/
structure ReadResponseOk where
  packet : List Nat
  expectReceive : Bool
  ackSent : Bool
  deriving Repr, DecidableEq

/-- Embeds `Device._read_response` after `read_from`: reject the reply when
it is not a disconnect frame and its sequence-number bit differs from the
local `expect_receive_`; the `raise lifescan_command.MalformedCommand(...)`
statement evaluates the global name `lifescan_command`, which is not
defined anywhere in the module (the module only imports `lifescan`), so
the rejection actually raises `NameError` there.  Otherwise toggle
`expect_receive_` for a non-ACK reply, validate the checksum, and send an
acknowledgment frame for a non-ACK reply. -/
def read_response (expectReceive : Bool) (cmd : List Nat) :
    Except PyErr ReadResponseOk :=
  if pyNot (is_in_control cmd BIT_DISCONNECT)
      && pyNeBool (is_in_control cmd BIT_SENT_COUNTER) expectReceive then
    .error (.nameError "lifescan_command")
  else
    let er2 := if pyNot (is_in_control cmd BIT_ACK) then !expectReceive
      else expectReceive
    match validate_checksum cmd with
    | .error e => .error e
    | .ok _ => .ok ⟨cmd, er2, pyNot (is_in_control cmd BIT_ACK)⟩

/-- C3: for every received reply packet that is not a disconnect frame and
whose sequence-number bit differs from the local `expect_receive_` flag,
`_read_response` rejects the reply — the checksum is never validated, no
acknowledgment is sent and no state is returned — but the exception
raised is `NameError` (the raise statement names the undefined global
`lifescan_command`), not the intended `MalformedCommand`. -/
theorem C3_sequence_mismatch_rejected (er : Bool) (cmd : List Nat)
    (hlen : 3 ≤ cmd.length)
    (hdisc : cmd.getD 2 0 &&& BIT_DISCONNECT = 0)
    (hseq : (cmd.getD 2 0 &&& BIT_SENT_COUNTER != 0) ≠ er) :
    read_response er cmd = .error (.nameError "lifescan_command") := by
  have hne : ¬cmd.isEmpty := by
    cases cmd with
    | nil => simp at hlen
    | cons x xs => simp
  unfold read_response
  simp only [List.getD, List.get?_eq_getElem?] at hdisc hseq
  have h1 : pyNot (is_in_control cmd BIT_DISCONNECT) = true := by
    simp [pyNot, is_in_control, hne, List.getD, hdisc]
  have h2 : pyNeBool (is_in_control cmd BIT_SENT_COUNTER) er = true := by
    simp only [pyNeBool, is_in_control]
    simp only [if_neg hne]
    simpa using hseq
  rw [h1, h2]
  rfl

/-- Witness for C3: the reply `02 06 01 03 00 00` (control byte `0x01`:
disconnect clear, sequence-number bit set) against a driver whose
`expect_receive_` is `false` is rejected with the `NameError`. -/
theorem C3_witness :
    3 ≤ ([0x02, 0x06, 0x01, 0x03, 0x00, 0x00] : List Nat).length ∧
    read_response false [0x02, 0x06, 0x01, 0x03, 0x00, 0x00]
      = .error (.nameError "lifescan_command") :=
  ⟨by decide,
   C3_sequence_mismatch_rejected false [0x02, 0x06, 0x01, 0x03, 0x00, 0x00]
     (by decide) (by decide) (by decide)⟩

/-! ## Bayer LIS1-A transfer frame (claim C6)

From `support/lis.py`, `LIS1aMixin._parse_lis1a_transfer_frame`.  Byte
strings are `List Nat`; Python slices (including negative indices) are
modelled by `pySlice`/`pySliceFrom`. -/

def ASCII_STX : Nat := 0x02
def ASCII_ETX : Nat := 0x03
def ASCII_ETB : Nat := 0x17
def ASCII_LF : Nat := 0x0A
def ASCII_CR : Nat := 0x0D

/-- Resolution of one Python slice bound against a sequence length:
negative bounds count from the end and clamp at 0, nonnegative bounds clamp
at the length. -/
def pySliceIdx (len : Nat) (i : Int) : Nat :=
  if i < 0 then ((len : Int) + i).toNat else min i.toNat len

/-- Python slice `l[i:j]` with possibly negative bounds. -/
def pySlice (l : List Nat) (i j : Int) : List Nat :=
  let a := pySliceIdx l.length i
  let b := pySliceIdx l.length j
  (l.drop a).take (b - a)

/-- Python slice `l[i:]` with a possibly negative start. -/
def pySliceFrom (l : List Nat) (i : Int) : List Nat :=
  l.drop (pySliceIdx l.length i)

/-- Python `int(b)` on a bytes object holding an unsigned decimal numeral:
`ValueError` when empty or when any byte is not an ASCII digit.  (Python
also tolerates a sign and surrounding whitespace; LIS frame-number fields
are single bytes, so that tolerance is irrelevant here.) -/
def pyIntDigits (bs : List Nat) : Except PyErr Nat :=
  if bs.isEmpty then .error .valueError
  else if bs.all (fun c => 48 ≤ c && c ≤ 57) then
    .ok (bs.foldl (fun a c => 10 * a + (c - 48)) 0)
  else .error .valueError

/-- Hexadecimal value of an ASCII byte, if it is a hex digit. -/
def hexDigitVal (c : Nat) : Option Nat :=
  if 48 ≤ c && c ≤ 57 then some (c - 48)
  else if 65 ≤ c && c ≤ 70 then some (c - 55)
  else if 97 ≤ c && c ≤ 102 then some (c - 87)
  else none

/-- Python `int(b, 16)` on a bytes object holding an unsigned hexadecimal
numeral: `ValueError` when empty or any byte is not a hex digit.  (The
checksum field of a LIS frame is exactly two bytes, so the sign/whitespace/
`0x`-prefix tolerance of Python is irrelevant here.) -/
def pyIntHexDigits (bs : List Nat) : Except PyErr Nat :=
  if bs.isEmpty then .error .valueError
  else
    match bs.foldl
        (fun a c => match a, hexDigitVal c with
          | some v, some d => some (16 * v + d)
          | _, _ => none) (some 0) with
    | some v => .ok v
    | none => .error .valueError

/-- Embeds `LIS1aMixin._parse_lis1a_transfer_frame(previous_frame_number,
data)`: checks STX, parses the frame-number digit (a `ValueError` from
`int` is re-raised as `InvalidResponse`), rejects frame numbers above 7,
rejects a frame number different from `(previous + 1) % 8`, checks the
ETX/ETB terminator, compares the two-hex-digit checksum field with the
byte sum mod 256 of `data[1:-4]`, checks the trailing CR LF, and returns
`(frame_number, is_end_frame, text)`. -/
def parse_lis1a_transfer_frame (previousFrameNumber : Nat) (data : List Nat) :
    Except PyErr (Nat × Bool × List Nat) :=
  if pySlice data 0 1 != [ASCII_STX] then .error .invalidResponse
  else
    match pyIntDigits (pySlice data 1 2) with
    | .error _ => .error .invalidResponse
    | .ok frameNumber =>
      if frameNumber > 7 then .error .invalidResponse
      else if frameNumber != (previousFrameNumber + 1) % 8 then
        .error .invalidResponse
      else if pySlice data (-5) (-4) != [ASCII_ETX]
          && pySlice data (-5) (-4) != [ASCII_ETB] then .error .invalidResponse
      else
        let isEndFrame := pySlice data (-5) (-4) == [ASCII_ETX]
        match pyIntHexDigits (pySlice data (-4) (-2)) with
        | .error _ => .error .invalidResponse
        | .ok checksum =>
          let calculated := (pySlice data 1 (-4)).sum % 256
          if calculated != checksum then
            .error (.invalidChecksum calculated checksum)
          else if pySliceFrom data (-2) != [ASCII_CR, ASCII_LF] then
            .error .invalidResponse
          else .ok (frameNumber, isEndFrame, pySlice data 2 (-5))

theorem pyIntDigits_single (d : Nat) (hd : d ≤ 9) :
    pyIntDigits [48 + d] = .ok d := by
  have h1 : ((48 + d : Nat) ≤ 57) = True := by simp; omega
  simp [pyIntDigits, h1]

/-- C6: for every previous frame number `p` and every received LIS1-A frame
whose frame-number byte is an ASCII digit `d` different from
`(p + 1) % 8`, `_parse_lis1a_transfer_frame` raises the sequencing
`InvalidResponse` — in particular it never reaches the checksum
comparison, so this holds even when the frame's two-hex-digit checksum
field matches the byte-sum-mod-256 of the frame-number/text/terminator
region (an `InvalidChecksum` is never raised for such a frame). -/
theorem C6_frame_number_sequencing (p : Nat) (data : List Nat) (d : Nat)
    (hstx : pySlice data 0 1 = [ASCII_STX])
    (hfn : pySlice data 1 2 = [48 + d]) (hd : d ≤ 9)
    (hne : d ≠ (p + 1) % 8) :
    parse_lis1a_transfer_frame p data = .error .invalidResponse := by
  unfold parse_lis1a_transfer_frame
  rw [hstx, hfn, pyIntDigits_single d hd]
  simp only [bne_self_eq_false, Bool.false_eq_true, if_false]
  by_cases h7 : d > 7
  · simp [h7]
  · have : (d != (p + 1) % 8) = true := by simpa using hne
    simp [h7, this]

/-- Witness for C6: the concrete frame `02 '2' CR ETX '4' '2' CR LF` has a
valid checksum (`ord('2') + ord(CR) + ord(ETX) = 66 = 0x42`) but frame
number 2 instead of the expected `(0 + 1) % 8 = 1`, and is rejected with
`InvalidResponse`. -/
theorem C6_witness :
    ((pySlice [2, 50, 13, 3, 52, 50, 13, 10] 1 (-4)).sum % 256 = 0x42) ∧
    parse_lis1a_transfer_frame 0 [2, 50, 13, 3, 52, 50, 13, 10]
      = .error .invalidResponse :=
  ⟨by decide,
   C6_frame_number_sequencing 0 [2, 50, 13, 3, 52, 50, 13, 10] 2
     (by decide) (by decide) (by decide) (by decide)⟩

/-! ## Python datetime (shared by the TaiDoc and FreeStyle record parsers)

Python `datetime.datetime(year, month, day, hour, minute[, second])`
validates every field and raises `ValueError` out of range. -/

/-- A validated Python `datetime.datetime` value (microseconds unused by the
embedded code). -/
structure PyDatetime where
  year : Int
  month : Int
  day : Int
  hour : Int
  minute : Int
  second : Int
  deriving Repr, DecidableEq

/-- Gregorian leap-year rule on `Int` years, as used by Python `datetime`. -/
def pyLeapYear (y : Int) : Bool :=
  (y % 4 == 0 && y % 100 != 0) || y % 400 == 0

/-- Days in a month, as validated by the Python `datetime` constructor. -/
def pyDaysInMonth (y m : Int) : Int :=
  if m == 2 then (if pyLeapYear y then 29 else 28)
  else if m == 4 || m == 6 || m == 9 || m == 11 then 30
  else 31

/-- The Python `datetime.datetime` constructor: `MINYEAR = 1`,
`MAXYEAR = 9999`, month/day/hour/minute/second range checks, raising
`ValueError` when violated. -/
def mkDatetime (y mo d h mi s : Int) : Except PyErr PyDatetime :=
  if 1 ≤ y ∧ y ≤ 9999 ∧ 1 ≤ mo ∧ mo ≤ 12 ∧ 1 ≤ d ∧ d ≤ pyDaysInMonth y mo
      ∧ 0 ≤ h ∧ h < 24 ∧ 0 ≤ mi ∧ mi < 60 ∧ 0 ≤ s ∧ s < 60 then
    .ok ⟨y, mo, d, h, mi, s⟩
  else .error .valueError

/-! ## TaiDoc TD-42xx datetime and frame (claims C8, C9)

From `drivers/td42xx.py`: `_DATETIME_STRUCT` (`day` as `Int16ul`, then a
minute byte and an hour byte), `_DAY_BITSTRUCT` (`year:7 | month:4 | day:5`,
most significant bit first), `_parse_datetime`, and the `_PACKET` construct
(`0x51 | command | message(4) | direction | byte_checksum`). -/

/-- Build of `construct.Int16ub`: a 16-bit value as two big-endian bytes. -/
def int16ub_build (v : Nat) : List Nat :=
  [(v >>> 8) &&& 0xFF, v &&& 0xFF]

/-- Parse of `_DAY_BITSTRUCT` from two bytes: bit fields `year:7`,
`month:4`, `day:5` taken most-significant-first from the 16-bit
big-endian value. -/
def day_bitstruct_parse (bs : List Nat) : Nat × Nat × Nat :=
  let v := (bs.getD 0 0) * 256 + bs.getD 1 0
  (v >>> 9, (v >>> 5) &&& 0xF, v &&& 0x1F)

/-- Embeds `td42xx._parse_datetime`: parse `_DATETIME_STRUCT` from the
4-byte message (`construct` raises a stream error on a short message),
re-encode the day word big-endian, parse `_DAY_BITSTRUCT` over it, and
build `datetime.datetime(2000 + year, month, day, hour, minute)`. -/
def parse_datetime (message : List Nat) : Except PyErr PyDatetime :=
  if message.length < 4 then .error .structError
  else
    let day := message.getD 0 0 + 256 * message.getD 1 0
    let minute := message.getD 2 0
    let hour := message.getD 3 0
    match day_bitstruct_parse (int16ub_build day) with
    | (y, mo, d) => mkDatetime (2000 + (y : Int)) mo d hour minute 0

/-- C8: the TaiDoc datetime decoder maps the 4-byte message `21 26 0e 15`
to 2019-01-01 21:14 and the message with day-bitfield bytes `21 24` and the
same minute/hour bytes to 2018-01-01 21:14. -/
theorem C8_taidoc_datetime_vectors :
    parse_datetime [0x21, 0x26, 0x0E, 0x15] = .ok ⟨2019, 1, 1, 21, 14, 0⟩ ∧
    parse_datetime [0x21, 0x24, 0x0E, 0x15] = .ok ⟨2018, 1, 1, 21, 14, 0⟩ := by
  constructor <;> rfl

/-- Direction byte of the TaiDoc protocol: the `Direction` enum of
`td42xx.py` (`In = 0xA5`, `Out = 0xA3`). -/
inductive TdDirection where
  | dIn : TdDirection
  | dOut : TdDirection
  deriving Repr, DecidableEq

def tdDirectionByte : TdDirection → Nat
  | .dIn => 0xA5
  | .dOut => 0xA3

/-- Reverse of the `construct.Mapping` on the direction byte: fails on any
byte other than `0xA5`/`0xA3`. -/
def tdDirectionOfByte (b : Nat) : Option TdDirection :=
  if b == 0xA5 then some .dIn
  else if b == 0xA3 then some .dOut
  else none

/-- The parsed fields of the `_PACKET` construct of `td42xx.py`. -/
structure TdPacket where
  command : Nat
  message : List Nat
  direction : TdDirection
  deriving Repr, DecidableEq

/-- Embeds parsing a TaiDoc frame with `_PACKET`: constant byte `0x51`,
command byte, 4-byte message, mapped direction byte, and a trailing
`byte_checksum` over the first seven bytes; `construct` raises on a short
stream, on a constant mismatch, on an unmapped direction byte, and on a
checksum mismatch. -/
def td_packet_parse (b : List Nat) : Except PyErr TdPacket :=
  if b.length < 8 then .error .structError
  else if b.getD 0 0 != 0x51 then .error .structError
  else
    match tdDirectionOfByte (b.getD 6 0) with
    | none => .error .structError
    | some direction =>
      match byte_checksum (b.take 7) with
      | .error e => .error e
      | .ok cs =>
        if b.getD 7 0 != cs then .error (.invalidChecksum cs (b.getD 7 0))
        else .ok ⟨b.getD 1 0, (b.drop 2).take 4, direction⟩

/-- Embeds building a TaiDoc frame with `_PACKET` (as `_make_packet` does
through `_PACKET.build`): the data region `0x51 | command | message |
direction` followed by its `byte_checksum`; `construct.Bytes(4)` raises
unless the message is exactly four bytes. -/
def td_packet_build (p : TdPacket) : Except PyErr (List Nat) :=
  if p.message.length != 4 then .error .structError
  else
    let dataBytes := 0x51 :: p.command :: p.message ++ [tdDirectionByte p.direction]
    match byte_checksum dataBytes with
    | .error e => .error e
    | .ok cs => .ok (dataBytes ++ [cs])

theorem and255_eq_mod (x : Nat) : x &&& 255 = x % 256 := by
  have h := Nat.and_pow_two_sub_one_eq_mod x 8
  norm_num at h
  exact h

/-- C9: for every well-formed 8-byte TaiDoc frame (first byte `0x51`,
direction byte in `{0xA3, 0xA5}`, last byte the byte-sum mod 256 of the
first seven), parsing with `_PACKET` succeeds and rebuilding a frame from
the parsed command, message and direction yields exactly the original
frame. -/
theorem C9_td_frame_roundtrip (b : List Nat)
    (hlen : b.length = 8)
    (hstart : b.getD 0 0 = 0x51)
    (hdir : b.getD 6 0 = 0xA3 ∨ b.getD 6 0 = 0xA5)
    (hck : b.getD 7 0 = (b.take 7).sum % 256) :
    ∃ p, td_packet_parse b = .ok p ∧ td_packet_build p = .ok b := by
  match b, hlen with
  | [x0, x1, x2, x3, x4, x5, x6, x7], _ =>
    simp only [List.getD, List.get?] at hstart hdir hck
    simp only [Option.getD_some] at hstart hdir hck
    subst hstart
    have hsum : (List.take 7 [0x51, x1, x2, x3, x4, x5, x6, x7]).sum
        = 0x51 + x1 + x2 + x3 + x4 + x5 + x6 := by
      simp [List.sum_cons]
      ring
    rw [hsum] at hck
    have hcs : byte_checksum (List.take 7 [0x51, x1, x2, x3, x4, x5, x6, x7])
        = .ok x7 := by
      show Except.map _ (pyReduce _ _) = _
      have : pyReduce (fun a b => a + b) (List.take 7 [0x51, x1, x2, x3, x4, x5, x6, x7])
          = .ok ((((((0x51 + x1) + x2) + x3) + x4) + x5) + x6) := rfl
      rw [this]
      show Except.ok ((((((0x51 + x1) + x2) + x3) + x4) + x5) + x6 &&& 0xFF) = _
      rw [and255_eq_mod]
      congr 1
      omega
    rcases hdir with h6 | h6 <;> subst h6
    · refine ⟨⟨x1, [x2, x3, x4, x5], .dOut⟩, ?_, ?_⟩
      · unfold td_packet_parse
        rw [hcs]
        simp [tdDirectionOfByte]
      · unfold td_packet_build
        have hb : (0x51 : Nat) :: x1 :: [x2, x3, x4, x5] ++ [tdDirectionByte .dOut]
            = List.take 7 [0x51, x1, x2, x3, x4, x5, 0xA3, x7] := by
          simp [tdDirectionByte]
        simp only [List.length_cons, List.length_nil]
        rw [if_neg (by decide)]
        rw [hb, hcs]
        simp
    · refine ⟨⟨x1, [x2, x3, x4, x5], .dIn⟩, ?_, ?_⟩
      · unfold td_packet_parse
        rw [hcs]
        simp [tdDirectionOfByte]
      · unfold td_packet_build
        have hb : (0x51 : Nat) :: x1 :: [x2, x3, x4, x5] ++ [tdDirectionByte .dIn]
            = List.take 7 [0x51, x1, x2, x3, x4, x5, 0xA5, x7] := by
          simp [tdDirectionByte]
        simp only [List.length_cons, List.length_nil]
        rw [if_neg (by decide)]
        rw [hb, hcs]
        simp

/-- Witness for C9: the hypotheses hold at the connect frame
`51 22 00 00 00 00 a3 16` (the frame asserted by the repository's TD-4277
test), and it round-trips. -/
theorem C9_witness :
    ([0x51, 0x22, 0, 0, 0, 0, 0xA3, 0x16] : List Nat).length = 8 ∧
    ∃ p, td_packet_parse [0x51, 0x22, 0, 0, 0, 0, 0xA3, 0x16] = .ok p ∧
      td_packet_build p = .ok [0x51, 0x22, 0, 0, 0, 0, 0xA3, 0x16] :=
  ⟨rfl,
   C9_td_frame_roundtrip [0x51, 0x22, 0, 0, 0, 0, 0xA3, 0x16]
     rfl (by decide) (by decide) (by decide)⟩

/-! ## FreeStyle Libre arresult records (claims C1, C5)

From `support/freestyle_libre.py` (`_parse_record`, `_extract_timestamp`,
`_parse_arresult` with its entry maps) and `support/freestyle.py`
(`convert_ketone_unit`).  Records are lists of string fields; Python dicts
with string keys and int values are association lists whose most recent
entries come first. -/

/-- Decimal value of a non-empty all-digit character list. -/
def decDigitsVal? (cs : List Char) : Option Nat :=
  if cs.isEmpty then none
  else if cs.all Char.isDigit then
    some (cs.foldl (fun a c => 10 * a + (c.toNat - 48)) 0)
  else none

/-- Python `int(s)` on a string field: an optional sign followed by decimal
digits, `ValueError` otherwise.  (Python also tolerates surrounding
whitespace and inner underscores; the record fields of these protocols are
plain numerals, so that tolerance is not modelled.) -/
def pyInt (s : String) : Except PyErr Int :=
  match s.toList with
  | '-' :: cs =>
    match decDigitsVal? cs with
    | some n => .ok (-(n : Int))
    | none => .error .valueError
  | '+' :: cs =>
    match decDigitsVal? cs with
    | some n => .ok (n : Int)
    | none => .error .valueError
  | cs =>
    match decDigitsVal? cs with
    | some n => .ok (n : Int)
    | none => .error .valueError

/-- A Python dict with string keys and int values, as an association list;
entries added later are closer to the head. -/
abbrev PyDict := List (String × Int)

/-- Dict lookup returning an option. -/
def dictFind? (d : PyDict) (k : String) : Option Int :=
  (d.find? (fun e => e.1 == k)).map (fun e => e.2)

/-- Python `d[k]`: `KeyError` when the key is missing. -/
def dictGet (d : PyDict) (k : String) : Except PyErr Int :=
  match dictFind? d k with
  | some v => .ok v
  | none => .error (.keyError k)

/-- Python `d.update(e)`: entries of `e` shadow entries of `d`. -/
def dictUpdate (d e : PyDict) : PyDict := e ++ d

/-- The `_BASE_ENTRY_MAP` of `freestyle_libre.py`. -/
def BASE_ENTRY_MAP : List (Nat × String) :=
  [(0, "device_id"), (1, "type"), (2, "month"), (3, "day"), (4, "year"),
   (5, "hour"), (6, "minute"), (7, "second")]

/-- The `_ARRESULT_TYPE2_ENTRY_MAP` of `freestyle_libre.py`. -/
def ARRESULT_TYPE2_ENTRY_MAP : List (Nat × String) :=
  [(9, "reading-type"), (12, "value"), (15, "sport-flag"),
   (16, "medication-flag"), (17, "rapid-acting-flag"),
   (18, "long-acting-flag"), (19, "custom-comments-bitfield"),
   (23, "double-long-acting-insulin"), (25, "food-flag"),
   (26, "food-carbs-grams"), (28, "errors")]

/-- The `_ARRESULT_TIME_ADJUSTMENT_ENTRY_MAP` of `freestyle_libre.py`. -/
def ARRESULT_TIME_ADJUSTMENT_ENTRY_MAP : List (Nat × String) :=
  [(9, "old_month"), (10, "old_day"), (11, "old_year"), (12, "old_hour"),
   (13, "old_minute"), (14, "old_second")]

/-- The `_ARRESULT_RAPID_INSULIN_ENTRY_MAP` of `freestyle_libre.py`. -/
def ARRESULT_RAPID_INSULIN_ENTRY_MAP : List (Nat × String) :=
  [(43, "double-rapid-acting-insulin")]

/-- The dict comprehension of `_parse_record`: entries are evaluated in map
order; an `IndexError` from `record[idx]` aborts the whole comprehension
(signalled here by `none`), while a `ValueError` from `int` propagates. -/
def parseRecordGo (record : List String) :
    List (Nat × String) → Except PyErr (Option PyDict)
  | [] => .ok (some [])
  | (idx, key) :: rest =>
    match record.get? idx with
    | none => .ok none
    | some s =>
      match pyInt s with
      | .error e => .error e
      | .ok v =>
        match parseRecordGo record rest with
        | .error e => .error e
        | .ok none => .ok none
        | .ok (some d) => .ok (some ((key, v) :: d))

/-- Embeds `_parse_record`: an empty record gives the empty dict, a caught
`IndexError` gives the empty dict, a `ValueError` from a non-numeral field
propagates. -/
def parse_record (record : List String) (entryMap : List (Nat × String)) :
    Except PyErr PyDict :=
  if record.isEmpty then .ok []
  else
    match parseRecordGo record entryMap with
    | .error e => .error e
    | .ok none => .ok []
    | .ok (some d) => .ok d

/-- Embeds `_extract_timestamp`: builds
`datetime.datetime(pr[pfx+"year"]+2000, pr[pfx+"month"], pr[pfx+"day"],
pr[pfx+"hour"], pr[pfx+"minute"], pr[pfx+"second"])`, with the dict
lookups performed in that order. -/
def extract_timestamp (pr : PyDict) (pfx : String) : Except PyErr PyDatetime :=
  match dictGet pr (pfx ++ "year") with
  | .error e => .error e
  | .ok y =>
    match dictGet pr (pfx ++ "month") with
    | .error e => .error e
    | .ok mo =>
      match dictGet pr (pfx ++ "day") with
      | .error e => .error e
      | .ok d =>
        match dictGet pr (pfx ++ "hour") with
        | .error e => .error e
        | .ok h =>
          match dictGet pr (pfx ++ "minute") with
          | .error e => .error e
          | .ok mi =>
            match dictGet pr (pfx ++ "second") with
            | .error e => .error e
            | .ok s => mkDatetime (y + 2000) mo d h mi s

/-- Embeds `freestyle.convert_ketone_unit`: `raw_value / 18.0` (the same
scaling the meter uses for blood glucose, per the source docstring). -/
def convert_ketone_unit (raw_value : ℚ) : ℚ :=
  raw_value / 18

/-- Python truthiness of an int. -/
def pyTruthy (v : Int) : Bool := v != 0

/-- Python `v & (1 << i) != 0` on an int `v` (two's complement, so bit `i`
of `v` is `(v >> i) & 1` with flooring shift). -/
def pyBitTest (v : Int) (i : Nat) : Bool :=
  (Int.fdiv v (2 ^ i)) % 2 == 1

/-- Python `f"{x/2:.1f}"` for an int `x`: the exact half `x/2` rendered
with one decimal digit. -/
def formatHalf (x : Int) : String :=
  (if x < 0 then "-" else "")
    ++ toString (x.natAbs / 2) ++ "." ++ toString (5 * (x.natAbs % 2))

/-- Python slice `record[i:j]` on a list of strings, nonnegative bounds. -/
def pySliceStr (l : List String) (i j : Nat) : List String :=
  (l.drop i).take (j - i)

/-- The `MeasurementMethod` enum of `common.py` (members used by the Libre
driver). -/
inductive MeasurementMethod where
  | bloodSample : MeasurementMethod
  | cgm : MeasurementMethod
  | time : MeasurementMethod
  deriving Repr, DecidableEq

/-- The readings produced by `_parse_arresult`: `GlucoseReading`,
`KetoneReading` (timestamp, value, joined comment, measurement method,
`device_id` extra datum) and `TimeAdjustment` (new and old timestamp,
`device_id`). -/
inductive Reading where
  | glucose : PyDatetime → ℚ → String → MeasurementMethod → Int → Reading
  | ketone : PyDatetime → ℚ → String → MeasurementMethod → Int → Reading
  | timeAdjustment : PyDatetime → PyDatetime → Int → Reading
  deriving Repr, DecidableEq

/-- The custom-comment loop of `_parse_arresult`:
`for comment_index in range(6): if parsed_record["custom-comments-bitfield"]
& (1 << comment_index): comment_parts.append(custom_comments[comment_index])`,
with the list index raising `IndexError` past the end of the slice. -/
def custom_comment_parts (pr : PyDict) (customComments : List String) :
    List Nat → Except PyErr (List String)
  | [] => .ok []
  | i :: rest =>
    match dictGet pr "custom-comments-bitfield" with
    | .error e => .error e
    | .ok bf =>
      if pyBitTest bf i then
        match customComments.get? i with
        | none => .error .indexError
        | some c =>
          match custom_comment_parts pr customComments rest with
          | .error e => .error e
          | .ok more => .ok (c :: more)
      else custom_comment_parts pr customComments rest

/-- The reading-type dispatch of `_parse_arresult` (the `reading-type == 2
/ 0 / 1` chain): produces the first comment part, the measurement method,
whether the reading is a ketone one, and the value —
`convert_ketone_unit` applied to the raw value for ketone blood strips —
or `none` for an unknown reading type. -/
def arresultDispatch (pr : PyDict) :
    Except PyErr (Option (String × MeasurementMethod × Bool × ℚ)) :=
  match dictGet pr "reading-type" with
  | .error e => .error e
  | .ok readingType =>
    if readingType == 2 then
      match dictGet pr "value" with
      | .error e => .error e
      | .ok v => .ok (some ("(Scan)", MeasurementMethod.cgm, false, (v : ℚ)))
    else if readingType == 0 then
      match dictGet pr "value" with
      | .error e => .error e
      | .ok v =>
        .ok (some ("(Blood)", MeasurementMethod.bloodSample, false, (v : ℚ)))
    else if readingType == 1 then
      match dictGet pr "value" with
      | .error e => .error e
      | .ok rawValue =>
        .ok (some ("(Ketone)", MeasurementMethod.bloodSample, true,
          convert_ketone_unit (rawValue : ℚ)))
    else .ok none

/-- The comment-assembly and reading-construction tail of
`_parse_arresult`: the custom-comment loop over `record[29:35]`, the
sport/medication/food/long-acting/rapid-acting comment parts, the
timestamp extraction and the construction of the reading.  The
`"double-rapid-acting-insulin" in parsed_record` membership test plus
subscript is collapsed into one `dictFind?` match. -/
def arresultAssemble (record : List String) (pr : PyDict)
    (firstComment : String) (method : MeasurementMethod) (isKetone : Bool)
    (value : ℚ) : Except PyErr (Option Reading) :=
  let customComments := pySliceStr record 29 35
  match custom_comment_parts pr customComments [0, 1, 2, 3, 4, 5] with
  | .error e => .error e
  | .ok ccParts =>
    match dictGet pr "sport-flag" with
    | .error e => .error e
    | .ok sport =>
      match dictGet pr "medication-flag" with
      | .error e => .error e
      | .ok med =>
        match dictGet pr "food-flag" with
        | .error e => .error e
        | .ok food =>
          match (if pyTruthy food then
              match dictGet pr "food-carbs-grams" with
              | .error e => .error e
              | .ok grams =>
                .ok (if pyTruthy grams then
                    ["Food (" ++ toString grams ++ " g)"]
                  else ["Food"])
            else .ok [] : Except PyErr (List String)) with
          | .error e => .error e
          | .ok foodParts =>
            match dictGet pr "long-acting-flag" with
            | .error e => .error e
            | .ok longActing =>
              match (if pyTruthy longActing then
                  match dictGet pr "double-long-acting-insulin" with
                  | .error e => .error e
                  | .ok x =>
                    .ok (if x != 0 then
                        ["Long-acting insulin (" ++ formatHalf x ++ ")"]
                      else ["Long-acting insulin"])
                else .ok [] : Except PyErr (List String)) with
              | .error e => .error e
              | .ok longParts =>
                match dictGet pr "rapid-acting-flag" with
                | .error e => .error e
                | .ok rapidFlag2 =>
                  let rapidParts := if pyTruthy rapidFlag2 then
                      match dictFind? pr "double-rapid-acting-insulin" with
                      | some x =>
                        ["Rapid-acting insulin (" ++ formatHalf x ++ ")"]
                      | none => ["Rapid-acting insulin"]
                    else []
                  match extract_timestamp pr "" with
                  | .error e => .error e
                  | .ok ts =>
                    match dictGet pr "device_id" with
                    | .error e => .error e
                    | .ok did =>
                      let comment := String.intercalate "; "
                        ([firstComment] ++ ccParts
                          ++ (if pyTruthy sport then ["Sport"] else [])
                          ++ (if pyTruthy med then ["Medication"] else [])
                          ++ foodParts ++ longParts ++ rapidParts)
                      .ok (some (if isKetone then
                          .ketone ts value comment method did
                        else .glucose ts value comment method did))

/-- The remainder of `_parse_arresult` once the record type is known to be
2: the rapid-acting gate with its optional index-43 parse, the `errors`
gate, then `arresultDispatch` and `arresultAssemble`. -/
def parseArresultType2 (record : List String) (pr0 : PyDict) :
    Except PyErr (Option Reading) :=
  match dictGet pr0 "rapid-acting-flag" with
  | .error e => .error e
  | .ok rapidFlag =>
    match (if pyTruthy rapidFlag then
        match parse_record record ARRESULT_RAPID_INSULIN_ENTRY_MAP with
        | .error e => .error e
        | .ok dr => .ok (dictUpdate pr0 dr)
      else .ok pr0 : Except PyErr PyDict) with
    | .error e => .error e
    | .ok pr =>
      match dictGet pr "errors" with
      | .error e => .error e
      | .ok errs =>
        if pyTruthy errs then .ok none
        else
          match arresultDispatch pr with
          | .error e => .error e
          | .ok none => .ok none
          | .ok (some (firstComment, method, isKetone, value)) =>
            arresultAssemble record pr firstComment method isKetone value

/-- Embeds `_parse_arresult`: parse the base entry map, dispatch on the
`type` field (2: measurement record, 5: time adjustment, otherwise
ignored). -/
def parse_arresult (record : List String) : Except PyErr (Option Reading) :=
  match parse_record record BASE_ENTRY_MAP with
  | .error e => .error e
  | .ok parsedRecord =>
    if parsedRecord.isEmpty then .ok none
    else
      match dictGet parsedRecord "type" with
      | .error e => .error e
      | .ok ty =>
        if ty == 2 then
          match parse_record record ARRESULT_TYPE2_ENTRY_MAP with
          | .error e => .error e
          | .ok d2 => parseArresultType2 record (dictUpdate parsedRecord d2)
        else if ty == 5 then
          match parse_record record ARRESULT_TIME_ADJUSTMENT_ENTRY_MAP with
          | .error e => .error e
          | .ok d5 =>
            let pr := dictUpdate parsedRecord d5
            match extract_timestamp pr "" with
            | .error e => .error e
            | .ok ts =>
              match extract_timestamp pr "old_" with
              | .error e => .error e
              | .ok oldTs =>
                match dictGet pr "device_id" with
                | .error e => .error e
                | .ok did => .ok (some (.timeAdjustment ts oldTs did))
        else .ok none

/-- A concrete arresult ketone blood-strip record: type 2 (measurement),
reading-type 1 (ketone blood strip), raw value 10, timestamp
2018-01-01 00:00:00, no flags, no errors. -/
def c1KetoneRecord : List String :=
  ["1", "2", "1", "1", "18", "0", "0", "0", "0", "1", "0", "0", "10", "0",
   "0", "0", "0", "0", "0", "0", "0", "0", "0", "0", "0", "0", "0", "0", "0"]

/-- C1 counterexample: the claim says the FreeStyle ketone conversion maps
`raw` to `(raw + 1) / 2 / 10.0` mmol/L, giving `0.55` for raw value 10; but
`freestyle.convert_ketone_unit` computes `raw / 18.0`, which at raw value
10 yields `5/9 = 0.555…`, not `(10 + 1) / 2 / 10 = 0.55`. -/
theorem C1_counterexample :
    convert_ketone_unit 10 ≠ (10 + 1) / 2 / 10 := by
  norm_num [convert_ketone_unit]

/-- C1 (amended): the FreeStyle ketone raw-value conversion maps a device
raw value to mmol/L via `raw / 18.0` (the same scaling as blood glucose);
in particular, for raw value 10 the converted value is `5/9 ≈ 0.5556`
mmol/L, and this is the function applied by the arresult parser to every
ketone blood-strip record, as evaluated on a concrete ketone record. -/
theorem C1_ketone_conversion :
    parse_arresult c1KetoneRecord
      = .ok (some (.ketone ⟨2018, 1, 1, 0, 0, 0⟩ (convert_ketone_unit 10)
          "(Ketone)" .bloodSample 1)) ∧
    convert_ketone_unit 10 = 5 / 9 := by
  constructor
  · rfl
  · norm_num [convert_ketone_unit]

/-- A concrete 30-field type-2 arresult record with custom-comment bit 1
set in the bitfield (field 19 = "2") but with the comment string at index
30 missing: the slice `record[29:35]` has a single element and the loop
accesses `custom_comments[1]`. -/
def c5ShortRecord : List String :=
  ["1", "2", "1", "1", "18", "0", "0", "0", "0", "0", "0", "0", "100", "0",
   "0", "0", "0", "0", "0", "2", "0", "0", "0", "0", "0", "0", "0", "0", "0",
   "c"]

/-- C5 counterexample: the claim says `_parse_arresult` never performs an
out-of-bounds field access on a short record and returns `None` or a
`Reading` instead of raising an index error; but on a 30-field record with
custom-comment bit 1 set, the gated read of the comment string at index 30
raises `IndexError`. -/
theorem C5_counterexample :
    parse_arresult c5ShortRecord = .error .indexError := by
  rfl

/-! ### Support lemmas for C5 -/

theorem get?_append_lt {α : Type} (l₁ l₂ : List α) (n : Nat)
    (h : n < l₁.length) : (l₁ ++ l₂).get? n = l₁.get? n := by
  simp [List.get?_eq_getElem?, List.getElem?_append_left h]

theorem parseRecordGo_append (pre post : List String)
    (m : List (Nat × String)) (hm : ∀ p ∈ m, p.1 < pre.length) :
    parseRecordGo (pre ++ post) m = parseRecordGo pre m := by
  induction m with
  | nil => rfl
  | cons p rest ih =>
    obtain ⟨idx, key⟩ := p
    have hidx : idx < pre.length := hm (idx, key) (List.mem_cons_self _ _)
    have hrest : ∀ q ∈ rest, q.1 < pre.length :=
      fun q hq => hm q (List.mem_cons_of_mem _ hq)
    simp only [parseRecordGo, get?_append_lt pre post idx hidx, ih hrest]

theorem isEmpty_false_of_ne_nil {α : Type} (l : List α) (h : l ≠ []) :
    l.isEmpty = false := by
  cases l with
  | nil => exact absurd rfl h
  | cons x xs => rfl

theorem parse_record_append (pre post : List String)
    (m : List (Nat × String)) (hpre : pre ≠ [])
    (hm : ∀ p ∈ m, p.1 < pre.length) :
    parse_record (pre ++ post) m = parse_record pre m := by
  unfold parse_record
  have h1 : (pre ++ post).isEmpty = false :=
    isEmpty_false_of_ne_nil _ (by simp [hpre])
  have h2 : pre.isEmpty = false := isEmpty_false_of_ne_nil _ hpre
  rw [h1, h2, parseRecordGo_append pre post m hm]

theorem parseRecordGo_keys (r : List String) (m : List (Nat × String)) :
    ∀ (d : PyDict), parseRecordGo r m = .ok (some d) →
      ∀ e ∈ d, e.1 ∈ m.map Prod.snd := by
  induction m with
  | nil =>
    intro d h e he
    simp only [parseRecordGo] at h
    cases h
    simp at he
  | cons p rest ih =>
    intro d h e he
    obtain ⟨idx, key⟩ := p
    simp only [parseRecordGo] at h
    cases hg : r.get? idx with
    | none => rw [hg] at h; cases h
    | some s =>
      rw [hg] at h
      try simp only [] at h
      cases hv : pyInt s with
      | error e2 => rw [hv] at h; cases h
      | ok v =>
        rw [hv] at h
        try simp only [] at h
        cases hrec : parseRecordGo r rest with
        | error e2 => rw [hrec] at h; cases h
        | ok o =>
          rw [hrec] at h
          try simp only [] at h
          cases o with
          | none => cases h
          | some d2 =>
            cases h
            simp only [List.map_cons, List.mem_cons]
            rcases List.mem_cons.1 he with he1 | he2
            · left
              rw [he1]
            · right
              exact ih d2 hrec e he2

theorem parse_record_keys (r : List String) (m : List (Nat × String))
    (d : PyDict) (h : parse_record r m = .ok d) :
    ∀ e ∈ d, e.1 ∈ m.map Prod.snd := by
  unfold parse_record at h
  by_cases hre : r.isEmpty
  · rw [if_pos hre] at h
    cases h
    intro e he
    simp at he
  · rw [if_neg hre] at h
    cases hgo : parseRecordGo r m with
    | error e2 => rw [hgo] at h; cases h
    | ok o =>
      rw [hgo] at h
      cases o with
      | none => cases h; intro e he; simp at he
      | some d2 => cases h; exact parseRecordGo_keys r m d hgo

theorem dictFind?_of_keys_not (d : PyDict) (k : String)
    (h : ∀ e ∈ d, e.1 ≠ k) : dictFind? d k = none := by
  unfold dictFind?
  rw [List.find?_eq_none.2]
  · rfl
  · intro e he
    simpa using h e he

theorem parseRecordGo_find (r : List String) (k : String) (idx : Nat)
    (s : String) (v : Int) (hs : r.get? idx = some s) (hv : pyInt s = .ok v) :
    ∀ (m : List (Nat × String)) (d : PyDict),
      parseRecordGo r m = .ok (some d) → (idx, k) ∈ m →
      (∀ p ∈ m, p.2 = k → p.1 = idx) →
      dictFind? d k = some v := by
  intro m
  induction m with
  | nil => intro d _ hmem; simp at hmem
  | cons p rest ih =>
    intro d h hmem huniq
    obtain ⟨i0, k0⟩ := p
    simp only [parseRecordGo] at h
    cases hg : r.get? i0 with
    | none => rw [hg] at h; cases h
    | some s0 =>
      rw [hg] at h
      try simp only [] at h
      cases hv0 : pyInt s0 with
      | error e2 => rw [hv0] at h; cases h
      | ok v0 =>
        rw [hv0] at h
        try simp only [] at h
        cases hrec : parseRecordGo r rest with
        | error e2 => rw [hrec] at h; cases h
        | ok o =>
          rw [hrec] at h
          try simp only [] at h
          cases o with
          | none => cases h
          | some d2 =>
            cases h
            by_cases hk : k0 = k
            · subst hk
              have hi0 : i0 = idx := huniq (i0, k0) (List.mem_cons_self _ _) rfl
              subst hi0
              rw [hs] at hg
              cases hg
              rw [hv] at hv0
              cases hv0
              simp [dictFind?]
            · have hmem2 : (idx, k) ∈ rest := by
                rcases List.mem_cons.1 hmem with heq | h2
                · cases heq; exact absurd rfl hk
                · exact h2
              have huniq2 : ∀ p ∈ rest, p.2 = k → p.1 = idx :=
                fun p hp => huniq p (List.mem_cons_of_mem _ hp)
              have := ih d2 hrec hmem2 huniq2
              unfold dictFind? at this ⊢
              rw [List.find?_cons_of_neg]
              · exact this
              · simpa using hk

theorem parse_record_find (pre : List String) (m : List (Nat × String))
    (d : PyDict) (k : String) (idx : Nat) (s : String) (v : Int)
    (hpre : pre ≠ []) (h : parse_record pre m = .ok d)
    (hs : pre.get? idx = some s) (hv : pyInt s = .ok v)
    (hmem : (idx, k) ∈ m) (huniq : ∀ p ∈ m, p.2 = k → p.1 = idx) :
    d = [] ∨ dictFind? d k = some v := by
  unfold parse_record at h
  rw [if_neg (by simp [isEmpty_false_of_ne_nil pre hpre])] at h
  cases hgo : parseRecordGo pre m with
  | error e2 => rw [hgo] at h; cases h
  | ok o =>
    rw [hgo] at h
    cases o with
    | none => cases h; exact Or.inl rfl
    | some d2 =>
      cases h
      exact Or.inr (parseRecordGo_find pre k idx s v hs hv m d hgo hmem huniq)

theorem dictFind?_append_left (d2 d : PyDict) (k : String) (v : Int)
    (h : dictFind? d2 k = some v) : dictFind? (d2 ++ d) k = some v := by
  unfold dictFind? at h ⊢
  rw [List.find?_append]
  cases he : List.find? (fun e => e.1 == k) d2 with
  | none => rw [he] at h; cases h
  | some e2 => rw [he] at h; simp [he, h]

theorem pyBitTest_zero (i : Nat) : pyBitTest 0 i = false := by
  simp [pyBitTest, Int.zero_fdiv]

theorem custom_comment_parts_zero {pr : PyDict}
    (h : dictFind? pr "custom-comments-bitfield" = some 0)
    (cc : List String) (idxs : List Nat) :
    custom_comment_parts pr cc idxs = .ok [] := by
  induction idxs with
  | nil => rfl
  | cons i rest ih =>
    unfold custom_comment_parts
    have hget : dictGet pr "custom-comments-bitfield" = .ok 0 := by
      simp [dictGet, h]
    rw [hget]
    simp only [pyBitTest_zero, Bool.false_eq_true, if_false]
    exact ih

theorem base_no_key (r : List String) (d : PyDict)
    (h : parse_record r BASE_ENTRY_MAP = .ok d) (k : String)
    (hk : k ∉ BASE_ENTRY_MAP.map Prod.snd) : dictFind? d k = none := by
  apply dictFind?_of_keys_not
  intro e he heq
  exact hk (heq ▸ parse_record_keys r _ d h e he)

theorem type2_dict_flags (pre : List String) (d2 : PyDict) (hpre : pre ≠ [])
    (h : parse_record pre ARRESULT_TYPE2_ENTRY_MAP = .ok d2)
    (h17 : pre.get? 17 = some "0") (h19 : pre.get? 19 = some "0") :
    d2 = [] ∨ (dictFind? d2 "rapid-acting-flag" = some 0 ∧
      dictFind? d2 "custom-comments-bitfield" = some 0) := by
  have hv : pyInt "0" = .ok 0 := rfl
  have ha := parse_record_find pre _ d2 "rapid-acting-flag" 17 "0" 0 hpre h
    h17 hv (by decide) (by decide)
  have hb := parse_record_find pre _ d2 "custom-comments-bitfield" 19 "0" 0
    hpre h h19 hv (by decide) (by decide)
  rcases ha with h1 | h1
  · exact Or.inl h1
  · rcases hb with h2 | h2
    · exact Or.inl h2
    · exact Or.inr ⟨h1, h2⟩

theorem arresultAssemble_record_irrelevant (pre post : List String)
    (pr : PyDict) (c : String) (m : MeasurementMethod) (k : Bool) (v : ℚ)
    (hbf : dictFind? pr "custom-comments-bitfield" = some 0) :
    arresultAssemble (pre ++ post) pr c m k v
      = arresultAssemble pre pr c m k v := by
  unfold arresultAssemble
  simp only [custom_comment_parts_zero hbf]

theorem parseArresultType2_record_irrelevant (pre post : List String)
    (d d2 : PyDict)
    (hd1 : dictFind? d "rapid-acting-flag" = none)
    (hd2 : d2 = [] ∨ (dictFind? d2 "rapid-acting-flag" = some 0 ∧
        dictFind? d2 "custom-comments-bitfield" = some 0)) :
    parseArresultType2 (pre ++ post) (dictUpdate d d2)
      = parseArresultType2 pre (dictUpdate d d2) := by
  rcases hd2 with rfl | ⟨hr, hc⟩
  · unfold parseArresultType2
    have hkey : dictGet (dictUpdate d ([] : PyDict)) "rapid-acting-flag"
        = .error (.keyError "rapid-acting-flag") := by
      show dictGet d "rapid-acting-flag" = _
      simp [dictGet, hd1]
    rw [hkey]
  · have hbf : dictFind? (dictUpdate d d2) "custom-comments-bitfield"
        = some 0 := dictFind?_append_left d2 d _ 0 hc
    have hra : dictGet (dictUpdate d d2) "rapid-acting-flag" = .ok 0 := by
      unfold dictGet dictUpdate
      rw [dictFind?_append_left d2 d _ 0 hr]
    unfold parseArresultType2
    rw [hra]
    try simp only []
    simp only [show pyTruthy 0 = false from rfl, Bool.false_eq_true, if_false]
    try simp only []
    rcases herr : dictGet (dictUpdate d d2) "errors" with e | errs
    · simp only [herr]
    · simp only [herr]
      cases he : pyTruthy errs with
      | true => simp only [he, if_true]
      | false =>
        simp only [he, Bool.false_eq_true, if_false]
        rcases hdisp : arresultDispatch (dictUpdate d d2) with e | o
        · try simp only [hdisp]
        · try simp only [hdisp]
          rcases o with _ | ⟨c, m, k, v⟩
          · rfl
          · exact arresultAssemble_record_irrelevant pre post _ c m k v hbf

/-- C5 (amended): `_parse_arresult` reads the optional sub-record fields —
the six custom-comment strings at indices 29–34 and the
double-rapid-acting-insulin field at index 43 — only when their governing
flag bit is set: for every 29-field record whose rapid-acting flag field
(index 17) and custom-comments bitfield (index 19) are `"0"`, the fields
past index 28 are never read, so appending arbitrary further fields does
not change the result.  The original claim's unconditional no-index-error
guarantee on short records is false: when a custom-comment bit is set but
the corresponding comment field is missing, the gated read itself raises
`IndexError` (see the counterexample). -/
theorem C5_gated_optional_fields (pre post : List String)
    (hlen : pre.length = 29)
    (h17 : pre.get? 17 = some "0")
    (h19 : pre.get? 19 = some "0") :
    parse_arresult (pre ++ post) = parse_arresult pre := by
  have hpre : pre ≠ [] := by
    intro h
    rw [h] at hlen
    cases hlen
  have hb : parse_record (pre ++ post) BASE_ENTRY_MAP
      = parse_record pre BASE_ENTRY_MAP :=
    parse_record_append pre post _ hpre (by rw [hlen]; decide)
  have ht2 : parse_record (pre ++ post) ARRESULT_TYPE2_ENTRY_MAP
      = parse_record pre ARRESULT_TYPE2_ENTRY_MAP :=
    parse_record_append pre post _ hpre (by rw [hlen]; decide)
  have ht5 : parse_record (pre ++ post) ARRESULT_TIME_ADJUSTMENT_ENTRY_MAP
      = parse_record pre ARRESULT_TIME_ADJUSTMENT_ENTRY_MAP :=
    parse_record_append pre post _ hpre (by rw [hlen]; decide)
  unfold parse_arresult
  simp only [hb, ht2, ht5]
  rcases hbase : parse_record pre BASE_ENTRY_MAP with e | d
  · simp only [hbase]
  · simp only [hbase]
    cases hde : d.isEmpty with
    | true => simp only [hde, if_true]
    | false =>
      simp only [hde, Bool.false_eq_true, if_false]
      rcases hty : dictGet d "type" with e | ty
      · simp only [hty]
      · simp only [hty]
        cases hty2 : ty == 2 with
        | true =>
          simp only [hty2, if_true]
          rcases h2 : parse_record pre ARRESULT_TYPE2_ENTRY_MAP with e | d2
          · simp only [h2]
          · simp only [h2]
            exact parseArresultType2_record_irrelevant pre post d d2
              (base_no_key pre d hbase _ (by decide))
              (type2_dict_flags pre d2 hpre h2 h17 h19)
        | false =>
          simp only [hty2, Bool.false_eq_true, if_false]

/-- Witness for C5: the hypotheses hold at the concrete 29-field ketone
record `c1KetoneRecord` (whose gate flags are `"0"`), and appending two
junk fields does not change the parse result. -/
theorem C5_witness :
    c1KetoneRecord.length = 29 ∧
    parse_arresult (c1KetoneRecord ++ ["junk", "junk2"])
      = parse_arresult c1KetoneRecord :=
  ⟨rfl, C5_gated_optional_fields c1KetoneRecord ["junk", "junk2"] rfl rfl rfl⟩

/-! ## Contour LIS frame validation (claim C10)

From `support/contour.py`, `ContourHidDevice.checkframe` with the
`_RECORD_FORMAT` regular expression of the contour drivers:

`\x02 (check: (recno:[0-7]) (text:[^\x0d]*) \x0d (end:[\x03\x17]))
(checksum:[0-9A-F]{2}) \x0d \x0a` (via `re.match`, so trailing characters
are allowed).  Frames are lists of characters. -/

/-- The named groups of a successful `_RECORD_FORMAT` match. -/
structure RecordMatch where
  recno : Nat
  text : List Char
  check : List Char
  endCh : Char
  checksum : List Char
  deriving Repr, DecidableEq

/-- An uppercase hexadecimal digit, as in the `[0-9A-F]` class. -/
def isHexUpper (c : Char) : Bool :=
  (decide ('0' ≤ c) && decide (c ≤ '9')) ||
  (decide ('A' ≤ c) && decide (c ≤ 'F'))

/-- Embeds `_RECORD_FORMAT.match(frame)`: the character class `[^\x0d]*`
cannot cross a carriage return, so the greedy match is the longest
CR-free prefix and the parse is deterministic. -/
def matchRecordFormat (frame : List Char) : Option RecordMatch :=
  match frame with
  | c0 :: c1 :: rest =>
    if c0 == '\x02' && decide ('0' ≤ c1) && decide (c1 ≤ '7') then
      let text := rest.takeWhile (fun c => c != '\x0D')
      match rest.dropWhile (fun c => c != '\x0D') with
      | cr :: e :: h1 :: h2 :: cr2 :: lf :: _ =>
        if cr == '\x0D' && (e == '\x03' || e == '\x17')
            && isHexUpper h1 && isHexUpper h2
            && cr2 == '\x0D' && lf == '\x0A' then
          some ⟨c1.toNat - 48, text, c1 :: (text ++ ['\x0D', e]), e, [h1, h2]⟩
        else none
      | _ => none
    else none
  | _ => none

/-- The uppercase hexadecimal digit of a value below 16. -/
def hexDigitUpper (n : Nat) : Char :=
  if n < 10 then Char.ofNat (48 + n) else Char.ofNat (55 + n)

/-- Embeds `ContourHidDevice.checksum`: the byte sum of the text mod 256,
rendered as exactly two uppercase hexadecimal characters
(`('00' + hex)[-2:]`). -/
def contour_checksum (text : List Char) : List Char :=
  let s := (text.map Char.toNat).sum % 256
  [hexDigitUpper (s / 16), hexDigitUpper (s % 16)]

/-- Embeds `ContourHidDevice.checkframe`: an unparsable frame raises
`FrameError`; `currecno` is initialised to the frame's record number when
still `None`; a frame with `recno + 1 == currecno` is silently ignored
(`return None`, state unchanged); any other `recno != currecno` raises
`FrameError`; a checksum mismatch raises `FrameError`; otherwise
`currecno` advances mod 8 and the text group is returned.  The result
pairs the new `currecno` with the returned value.  (On a raise the Python
object keeps whatever `currecno` was already assigned; the claims only
concern the raised/returned outcome.) -/
def checkframe (currecno : Option Int) (frame : List Char) :
    Except PyErr (Option Int × Option (List Char)) :=
  match matchRecordFormat frame with
  | none => .error .frameError
  | some m =>
    let recno : Int := m.recno
    let cur := currecno.getD recno
    if recno + 1 == cur then .ok (some cur, none)
    else if recno != cur then .error .frameError
    else if contour_checksum m.check != m.checksum then .error .frameError
    else .ok (some ((cur + 1) % 8), some m.text)

/-- A parsable frame with record number 3 whose checksum field `00` does
not match the byte-sum checksum `C6` of its check region. -/
def c10BadChecksumFrame : List Char :=
  ['\x02', '3', 'A', 'B', '\x0D', '\x03', '0', '0', '\x0D', '\x0A']

/-- A parsable frame with record number 2 and a correct checksum field
(`ord('2') + ord('A') + ord(CR) + ord(ETX) = 131 = 0x83`). -/
def c10DupFrame : List Char :=
  ['\x02', '2', 'A', '\x0D', '\x03', '8', '3', '\x0D', '\x0A']

/-- C10 counterexample: the claim says `checkframe` raises `FrameError`
only when the record number differs from both the expected value and the
expected value minus one; but a frame whose record number equals the
expected value exactly still raises `FrameError` when its checksum field
does not match. -/
theorem C10_counterexample :
    (∃ m, matchRecordFormat c10BadChecksumFrame = some m ∧ m.recno = 3) ∧
    checkframe (some 3) c10BadChecksumFrame = .error .frameError :=
  ⟨⟨⟨3, ['A', 'B'], ['3', 'A', 'B', '\x0D', '\x03'], '\x03', ['0', '0']⟩,
    rfl, rfl⟩, rfl⟩

/-- C10 (amended): for every expected record number and every parsable
frame whose record number equals the expected value minus one,
`checkframe` returns `None` without raising `FrameError` and without
advancing the expected record number; and for every parsable frame whose
record number differs from both the expected value and the expected value
minus one it raises `FrameError`.  Record-number agreement does not by
itself preclude `FrameError`: an unparsable frame or a checksum mismatch
also raises it (see the counterexample). -/
theorem C10_duplicate_frame_tolerated (cur : Int) (frame : List Char)
    (m : RecordMatch) (hm : matchRecordFormat frame = some m) :
    ((m.recno : Int) + 1 = cur →
      checkframe (some cur) frame = .ok (some cur, none)) ∧
    ((m.recno : Int) + 1 ≠ cur → (m.recno : Int) ≠ cur →
      checkframe (some cur) frame = .error .frameError) := by
  unfold checkframe
  rw [hm]
  try simp only []
  constructor
  · intro hdup
    have h1 : ((m.recno : Int) + 1 == (some cur : Option Int).getD m.recno)
        = true := by
      simp [hdup]
    rw [h1]
    rfl
  · intro hne1 hne
    have h1 : ((m.recno : Int) + 1 == (some cur : Option Int).getD m.recno)
        = false := by
      simp [hne1]
    have h2 : ((m.recno : Int) != (some cur : Option Int).getD m.recno)
        = true := by
      simp [hne]
    rw [h1, h2]
    rfl

/-- Witness for C10: the parsable frame `c10DupFrame` (record number 2) is
silently ignored when the expected record number is 3, and rejected with
`FrameError` when the expected record number is 5. -/
theorem C10_witness :
    checkframe (some 3) c10DupFrame = .ok (some 3, none) ∧
    checkframe (some 5) c10DupFrame = .error .frameError :=
  ⟨(C10_duplicate_frame_tolerated 3 c10DupFrame
      ⟨2, ['A'], ['2', 'A', '\x0D', '\x03'], '\x03', ['8', '3']⟩ rfl).1
      (by decide),
   (C10_duplicate_frame_tolerated 5 c10DupFrame
      ⟨2, ['A'], ['2', 'A', '\x0D', '\x03'], '\x03', ['8', '3']⟩ rfl).2
      (by decide) (by decide)⟩

end Glucometerutils
